import Mathlib

/-!
Verification of the deep-research engine of this repository.

The definitions below are a shallow embedding of the TypeScript sources:
`app/lib/models/unified-research-agent.ts` (the `UnifiedResearchAgent` class:
`searchWeb`, `generateSerpQueries`, `processSerpResult`, `generateFinalReport`,
`doRegularResearch`, `doDeepResearch`), `src/lib/openrouter.ts`
(`waitForRateLimit`, `searchWithRateLimit`, `writeFinalReport`), the
`DeepResearchAgent.generateFinalReport` variant, and
`app/components/research/StreamProcessor.ts` (`extractDomain`).

LLM and search-provider behaviour is supplied through explicit oracle
parameters; all control flow, string manipulation, dedup logic and event
emission is translated from the source.
-/

/-! ## Character-list string helpers

JavaScript's `String.prototype.replace` with a *string* pattern replaces only
the first occurrence.  We model that on `List Char`. -/

/-- `isPrefixList pat l` is true when `pat` is a prefix of `l`. -/
def isPrefixList : List Char → List Char → Bool
  | [], _ => true
  | _ :: _, [] => false
  | p :: ps, c :: cs => p = c && isPrefixList ps cs

/-- Remove the first occurrence of `pat` from `l`
(JS `l.replace(pat, '')` with a string pattern). -/
def removeFirstList (pat : List Char) : List Char → List Char
  | [] => []
  | c :: cs =>
    if isPrefixList pat (c :: cs) then (c :: cs).drop pat.length
    else c :: removeFirstList pat cs

/-- Substring test on character lists. -/
def containsSub (pat : List Char) : List Char → Bool
  | [] => isPrefixList pat []
  | c :: cs => isPrefixList pat (c :: cs) || containsSub pat cs

/-! ## URL host extraction

`new URL(url).hostname` for a plain `http(s)` URL: the text between `"://"`
and the first of `/ ? # :`, ASCII-lowercased by the URL parser.  A string
without a scheme separator or with an empty authority makes the constructor
throw, which we model as `none`. -/

/-- Drop everything up to and including the first `"://"`. -/
def afterScheme : List Char → Option (List Char)
  | [] => none
  | c :: cs =>
    if isPrefixList ("://".data) (c :: cs) then some ((c :: cs).drop 3)
    else afterScheme cs

/-- Take the host portion: characters before the first `/ ? # :`. -/
def takeHost : List Char → List Char
  | [] => []
  | c :: cs =>
    if c = '/' ∨ c = '?' ∨ c = '#' ∨ c = ':' then []
    else c :: takeHost cs

/-- `new URL(url).hostname`, for the simple URLs this program handles. -/
def hostOfUrl (url : String) : Option String :=
  match afterScheme url.data with
  | none => none
  | some rest =>
    let h := (takeHost rest).map Char.toLower
    if h.isEmpty then none else some (String.mk h)

/-! ## Source derivation (`UnifiedResearchAgent.searchWeb`, lines 135-157) -/

/-- A search-provider result document (`result.url`, `result.title`,
`result.markdown`, `result.description`); an empty string models a missing
(JS-falsy) field. -/
structure RawDoc where
  url : String
  title : String
  markdown : String
  description : String
deriving DecidableEq

/-- `urlObj.hostname.replace('www.', '')` — removes the *first* occurrence of
`"www."` anywhere in the host. -/
def agentDomain (host : String) : String :=
  String.mk (removeFirstList ("www.".data) host.data)

/-- `hostname.replace(/^www\./, '')` — strips only a *leading* `"www."`
(`StreamProcessor.extractDomain`, happy path). -/
def stripLeadingWww (h : String) : String :=
  if isPrefixList ("www.".data) h.data then String.mk (h.data.drop 4) else h

/-- `StreamProcessor.extractDomain` (lines 240-251): on URL-parse failure,
falls back to `url.split('/')[2]?.replace(/^www\./, '') || url`. -/
def extractDomainSP (url : String) : String :=
  match hostOfUrl url with
  | some h => stripLeadingWww h
  | none =>
    match (url.splitOn "/").get? 2 with
    | some p => let d := stripLeadingWww p; if d = "" then url else d
    | none => url

/-- An emitted source record.  `relevance` is held in hundredths (the JS
value `0.9` is the integer `90`): every relevance in play is an exact
multiple of `0.05`, so this scaling is lossless. -/
structure Source where
  title : String
  url : String
  domain : String
  favicon : String
  relevance : Int
deriving DecidableEq

/-- The per-document mapping in `searchWeb`: default title `'Untitled'`,
domain/favicon from the parsed URL (both empty when `new URL` throws), and
relevance hard-coded to `0.9`. -/
def mkSource (d : RawDoc) : Source :=
  let t := if d.title = "" then "Untitled" else d.title
  match hostOfUrl d.url with
  | some host =>
    { title := t
      url := d.url
      domain := agentDomain host
      favicon := "https://www.google.com/s2/favicons?domain=" ++ host ++ "&sz=32"
      relevance := 90 }
  | none =>
    { title := t, url := d.url, domain := "", favicon := "", relevance := 90 }

/-- `response.data.data.map(mkSource).filter(source => source.url)`. -/
def searchWebSources (docs : List RawDoc) : List Source :=
  (docs.map mkSource).filter (fun s => s.url != "")

/-- The relevance formula claimed by the specification, in hundredths:
`0.9 - 0.05*rank` clamped to `[0.1, 0.95]` becomes `90 - 5*rank` clamped to
`[10, 95]`.  Stated from the spec's words, for comparison with the source's
constant `0.9` (= `90`). -/
def specRelevance (rank : Nat) : Int :=
  let raw : Int := 90 - 5 * rank
  let capped : Int := if (95 : Int) < raw then 95 else raw
  if capped < (10 : Int) then 10 else capped

example : specRelevance 0 = 90 := by decide
example : specRelevance 1 = 85 := by decide
example : agentDomain "www.example.com" = "example.com" := by decide
example : agentDomain "en.www.example.com" = "en.example.com" := by decide
example : hostOfUrl "https://www.Example.COM/a?x=1" = some "www.example.com" := by decide

/-! ## `searchWeb` retry loop (`UnifiedResearchAgent.searchWeb`, lines 91-201)

One provider attempt either throws (network error / timeout / non-2xx) or
returns a response whose `data.data` field is a (possibly missing or empty)
array of documents.  The loop makes the initial try plus up to
`maxRetries = 2` retries. -/

/-- Outcome of a single provider call: `err` models a thrown exception,
`resp none` a response without a well-formed `data.data` array, and
`resp (some ds)` a response carrying the document array `ds`. -/
inductive Attempt where
  | err
  | resp (data : Option (List RawDoc))
deriving DecidableEq

/-- The value `searchWeb` resolves with. -/
structure SearchOutcome where
  results : List RawDoc
  success : Bool
  sources : List Source
deriving DecidableEq

/-- The `response.data && response.data.data && Array.isArray && length > 0`
validation: the document list when the attempt succeeded with a non-empty
array. -/
def attemptOk : Attempt → Option (List RawDoc)
  | .resp (some (d :: ds)) => some (d :: ds)
  | _ => none

/-- The body of `searchWeb`'s `while (retries <= maxRetries)` loop.  `out r`
is the provider outcome of attempt number `r`; the second component counts
attempts actually made.  Fuel equals the remaining permitted iterations
(`maxRetries - retries + 1`); the fuel-exhausted branch is the function's
trailing unreachable `return`. -/
def searchWebAux (out : Nat → Attempt) : Nat → Nat → SearchOutcome × Nat
  | 0, _ => (⟨[], false, []⟩, 0)
  | fuel + 1, r =>
    match attemptOk (out r) with
    | some ds => (⟨ds, true, searchWebSources ds⟩, 1)
    | none =>
      if r < 2 then
        let p := searchWebAux out fuel (r + 1)
        (p.1, p.2 + 1)
      else (⟨[], false, []⟩, 1)

/-- `searchWeb` with its attempt oracle: start at `retries = 0` with fuel for
the three permitted iterations. -/
def searchWeb (out : Nat → Attempt) : SearchOutcome × Nat :=
  searchWebAux out 3 0

/-- The progress events `searchWeb` itself reports: one `progress` per loop
iteration (line 97) plus one more on the success path (line 129). -/
def searchWebProgressCount (out : Nat → Attempt) : Nat :=
  (searchWeb out).2 + (if (searchWeb out).1.success then 1 else 0)

/-! ## Query planning (`UnifiedResearchAgent.generateSerpQueries`, lines 206-274)

The LLM reply is searched for a JSON object (fenced block, then a braced
region containing `"queries"`, then the whole text) and `JSON.parse`d; we
embed the pipeline from the parse outcome on: `none` models "no JSON found /
`JSON.parse` threw / the chat call itself threw", all of which land in the
same fallback. -/

/-- A parsed JSON value. -/
inductive JValue where
  | jnull
  | jbool (b : Bool)
  | jstr (s : String)
  | jnum (n : Int)
  | jarr (xs : List JValue)
  | jobj (fields : List (String × JValue))

/-- Field lookup in a JSON object. -/
def jLookup : List (String × JValue) → String → Option JValue
  | [], _ => none
  | (k, v) :: rest, key => if k = key then some v else jLookup rest key

/-- The `parsed && Array.isArray(parsed.queries)` test: the element list when
`parsed` is an object whose `queries` field is an array. -/
def queriesArrayOf : JValue → Option (List JValue)
  | .jobj fs =>
    match jLookup fs "queries" with
    | some (.jarr xs) => some xs
    | _ => none
  | _ => none

/-- The fallback query object built on any failure path. -/
def fallbackQuery (query : String) : JValue :=
  .jobj [("query", .jstr query),
         ("researchGoal", .jstr "Directly answering the user's original query")]

/-- `generateSerpQueries` from the parse outcome on: a well-formed `queries`
array is sliced to `numQueries` and returned as-is (its elements are not
validated); everything else produces the single fallback query. -/
def generateSerpQueries (parsed : Option JValue) (query : String)
    (numQueries : Nat) : List JValue :=
  match parsed with
  | none => [fallbackQuery query]
  | some v =>
    match queriesArrayOf v with
    | some xs => xs.take numQueries
    | none => [fallbackQuery query]

/-! ## Rate limiter (`src/lib/openrouter.ts`, lines 127-185)

Times are in milliseconds.  `RATE_LIMIT` is the configuration object;
`waitForRateLimit` mutates module-level state, modelled as explicit state
passing; the returned number is how long the caller slept. -/

def MAX_REQUESTS_PER_MINUTE : Nat := 5
def BACKOFF_INITIAL_MS : Nat := 1000
def BACKOFF_MAX_MS : Nat := 60000
def BACKOFF_MULTIPLIER : Nat := 2

/-- The module-level rate-limiting state (`requestCount`, `lastResetTime`,
`currentBackoffMs`). -/
structure RLState where
  requestCount : Nat
  lastResetTime : Nat
  currentBackoffMs : Nat
deriving DecidableEq

/-- The state at module load: zero requests, backoff at its initial value. -/
def rlStart : RLState :=
  ⟨0, 0, BACKOFF_INITIAL_MS⟩

/-- `waitForRateLimit` at wall-clock `now`: returns the state after the call
together with the milliseconds slept.  A full 60 s window since the last
reset clears the counter and backoff; otherwise a saturated counter sleeps
`currentBackoffMs`, doubles it (capped), clears the counter and restamps the
window at the wake-up time. -/
def waitForRateLimit (s : RLState) (now : Nat) : RLState × Nat :=
  if 60000 ≤ now - s.lastResetTime then
    (⟨0, now, BACKOFF_INITIAL_MS⟩, 0)
  else if MAX_REQUESTS_PER_MINUTE ≤ s.requestCount then
    (⟨0, now + s.currentBackoffMs,
      min (s.currentBackoffMs * BACKOFF_MULTIPLIER) BACKOFF_MAX_MS⟩,
     s.currentBackoffMs)
  else (s, 0)

/-- The admission step of `searchWithRateLimit`: `waitForRateLimit` followed
by `requestCount++`.  Returns (state after, admission time, ms waited). -/
def admitRequest (s : RLState) (now : Nat) : RLState × Nat × Nat :=
  let w := waitForRateLimit s now
  ({ w.1 with requestCount := w.1.requestCount + 1 }, now + w.2, w.2)

/-- Run `n` back-to-back admissions (each request issued the moment the
previous one is admitted).  Returns the list of (admission time, ms waited)
pairs plus the final state and clock. -/
def runRequests (s : RLState) (now : Nat) : Nat → List (Nat × Nat) × RLState × Nat
  | 0 => ([], s, now)
  | n + 1 =>
    let a := admitRequest s now
    let rest := runRequests a.1 a.2.1 n
    ((a.2.1, a.2.2) :: rest.1, rest.2)

example :
    ((runRequests rlStart 0 11).1.filter
      (fun p => p.2 == 0 && p.1 < 60000)).length = 9 := by decide

/-! ## Final report writers

Three near-duplicate report writers exist in the repository.  Each takes the
LLM outcome as `Option String` (`none` models a thrown chat call). -/

/-- `items.map(x => `- ` + x).join('\n')`. -/
def bulletList (items : List String) : String :=
  String.intercalate "\n" (items.map (fun x => "- " ++ x))

/-- The mechanical sources footer used by `writeFinalReport`
(`src/lib/openrouter.ts` line 407) and `DeepResearchAgent.generateFinalReport`:
`'\n\n## Sources\n\n' + visitedUrls.map(url => `- ` + url).join('\n')`. -/
def sourcesSection (urls : List String) : String :=
  "\n\n## Sources\n\n" ++ bulletList urls

/-- `UnifiedResearchAgent.generateFinalReport` (lines 423-461): returns the
LLM text verbatim; on failure, an apology followed by the learnings as
bullets.  Its `sources` argument is unused, and nothing is appended. -/
def generateFinalReportU (llm : Option String) (query : String)
    (learnings : List String) : String :=
  match llm with
  | some r => r
  | none =>
    "Sorry, I encountered an error while generating the final research report for: \""
      ++ query ++ "\". Here are the key points I found:\n\n" ++ bulletList learnings

/-- `DeepResearchAgent.generateFinalReport`: appends the URL section to the
LLM text, and its failure fallback also carries a `## Sources` section. -/
def generateFinalReportD (llm : Option String) (query : String)
    (learnings : List String) (visitedUrls : List String) : String :=
  match llm with
  | some r => r ++ sourcesSection visitedUrls
  | none =>
    "# Research Report: " ++ query ++
      "\n\n## Summary\n\nThere was an error generating the complete research report." ++
      "\n\n## Raw Findings\n\n" ++ bulletList learnings ++
      "\n\n## Sources\n\n" ++ bulletList visitedUrls

/-- `writeFinalReport` (`src/lib/openrouter.ts`, lines 379-409): appends the
URL section to the generated report; a failing LLM call propagates, so only
the success path exists. -/
def writeFinalReport (reportMarkdown : String) (visitedUrls : List String) : String :=
  reportMarkdown ++ sourcesSection visitedUrls

/-- `UnifiedResearchAgent.generateResearchReport` (lines 375-418, regular
mode): LLM text verbatim, or an apology on failure. -/
def generateResearchReport (llm : Option String) (query : String) : String :=
  match llm with
  | some r => r
  | none =>
    "Sorry, I encountered an error while generating a research report for: \""
      ++ query ++ "\". Please try again or refine your query."

/-! ## The streaming event protocol

`EventRecord` tags from the specification's protocol table (§6.1).  The
engine code constructs only a subset of them. -/

/-- One newline-delimited JSON event. -/
inductive Event where
  | start
  | progress
  | searchResults (content : String)
  | sources (ss : List Source)
  | learning (content : String)
  | content (s : String)
  | error (s : String)
  | complete
deriving DecidableEq

/-- The protocol tag of an event, without its payload. -/
inductive EKind where
  | kstart
  | kprogress
  | ksearchResults
  | ksources
  | klearning
  | kcontent
  | kerror
  | kcomplete
deriving DecidableEq

def Event.kind : Event → EKind
  | .start => .kstart
  | .progress => .kprogress
  | .searchResults _ => .ksearchResults
  | .sources _ => .ksources
  | .learning _ => .klearning
  | .content _ => .kcontent
  | .error _ => .kerror
  | .complete => .kcomplete

/-- The URLs carried by a `sources` event. -/
def eventUrls : Event → List String
  | .sources ss => ss.map (fun s => s.url)
  | _ => []

/-- All URLs announced across a stream's `sources` events, in order. -/
def streamUrls (es : List Event) : List String :=
  (es.map eventUrls).flatten

/-! ## Deep research engine (`UnifiedResearchAgent.doDeepResearch`, lines 521-676) -/

/-- A planned SERP query. -/
structure SerpQuery where
  query : String
  researchGoal : String
deriving DecidableEq

/-- The outcome of the parse stage of one `generateSerpQueries` call:
`failed` covers every fallback path (chat threw, no JSON, parse error,
missing/non-array `queries`), `ok qs` a parsed `queries` array. -/
inductive PlanOutcome where
  | failed
  | ok (qs : List SerpQuery)
deriving DecidableEq

/-- `generateSerpQueries` at the typed level (mirrors `generateSerpQueries`
on `JValue`): the parsed list sliced to `numQueries`, or the single fallback
query. -/
def planResult (out : PlanOutcome) (query : String) (numQueries : Nat) : List SerpQuery :=
  match out with
  | .failed => [⟨query, "Directly answering the user's original query"⟩]
  | .ok qs => qs.take numQueries

/-- Session oracles: the behaviour of the LLM and the search provider.
`plan q ls` is the parse outcome of the plan call for node `q` given the
learnings so far; `searchAttempts q` feeds `searchWeb`'s retry loop;
`process q docs` is the parsed learnings/follow-up lists of
`processSerpResult` before slicing; `reportLLM` is the final-report chat
outcome. -/
structure DeepEnv where
  plan : String → List String → PlanOutcome
  searchAttempts : String → Nat → Attempt
  process : String → List RawDoc → List String × List String
  reportLLM : Option String

/-- `processSerpResult` (lines 279-370): empty results short-circuit to
empty lists; otherwise the parsed arrays are sliced to the requested
counts. -/
def processSerpResult (env : DeepEnv) (q : String) (results : List RawDoc)
    (numLearnings numFollowUps : Nat) : List String × List String :=
  if results.isEmpty then ([], [])
  else ((env.process q results).1.take numLearnings,
        (env.process q results).2.take numFollowUps)

/-- Session state of `doDeepResearch` plus the emitted events.
`searchCalls` is trace instrumentation recording each argument passed to
`searchWeb`, used to state the dedup claims. -/
structure St where
  allLearnings : List String
  visitedQueries : List String
  visitedUrls : List String
  allSources : List Source
  searchCalls : List String
  events : List Event
deriving DecidableEq

def emptySt : St := ⟨[], [], [], [], [], []⟩

/-- Append one event to the stream. -/
def emitE (st : St) (e : Event) : St :=
  { st with events := st.events ++ [e] }

/-- Lines 596-607: insert one source, skipping already-visited URLs; a new
URL is recorded, collected, and streamed as a singleton `sources` event. -/
def insertSource (st : St) (src : Source) : St :=
  if st.visitedUrls.contains src.url then st
  else
    { st with
      visitedUrls := st.visitedUrls ++ [src.url]
      allSources := st.allSources ++ [src]
      events := st.events ++ [Event.sources [src]] }

/-- Lines 618-625: record one learning and stream it. -/
def addLearning (st : St) (l : String) : St :=
  { st with
    allLearnings := st.allLearnings ++ [l]
    events := st.events ++ [Event.learning l] }

/-- Lines 585-641: handle one generated SERP query — progress update, web
search (with the search's own progress reports), source dedup/emission,
result processing, learning emission, follow-up collection, progress
update.  Returns the entries to enqueue for the next depth. -/
def stepGenerated (env : DeepEnv) (depth breadth currentDepth : Nat)
    (st : St) (gq : SerpQuery) : St × List (String × Nat) :=
  let st := emitE st Event.progress
  let st := { st with searchCalls := st.searchCalls ++ [gq.query] }
  let sw := searchWeb (env.searchAttempts gq.query)
  let st := { st with
    events := st.events ++ List.replicate (searchWebProgressCount (env.searchAttempts gq.query)) Event.progress }
  let st := sw.1.sources.foldl insertSource st
  let lf := processSerpResult env gq.query sw.1.results
    (max 2 (5 / depth)) (max 1 (3 / depth))
  let st := lf.1.foldl addLearning st
  let next :=
    if currentDepth < depth then
      (lf.2.take breadth).map (fun q => (q, currentDepth + 1))
    else []
  let st := emitE st Event.progress
  (st, next)

/-- Lines 562-642: handle one frontier node — skip if its exact query string
was already visited, otherwise mark visited, report progress, plan its SERP
queries (bounded by `breadth`), and process each. -/
def stepNode (env : DeepEnv) (depth breadth currentDepth : Nat)
    (acc : St × List (String × Nat)) (node : String × Nat) : St × List (String × Nat) :=
  if acc.1.visitedQueries.contains node.1 then acc
  else
    let st := { acc.1 with visitedQueries := acc.1.visitedQueries ++ [node.1] }
    let st := emitE st Event.progress
    let generated := planResult (env.plan node.1 st.allLearnings) node.1 breadth
    generated.foldl
      (fun a gq =>
        ((stepGenerated env depth breadth currentDepth a.1 gq).1,
         a.2 ++ (stepGenerated env depth breadth currentDepth a.1 gq).2))
      (st, acc.2)

/-- Lines 549-649: the flat, level-by-level frontier loop.  One iteration
per depth level; the fuel argument equals the number of levels that may
still run, so `fuel = 0` exactly when `currentDepth` has passed `depth`. -/
def levelLoop (env : DeepEnv) (depth breadth : Nat) :
    Nat → Nat → List (String × Nat) → St → St
  | 0, _, _, st => st
  | fuel + 1, currentDepth, frontier, st =>
    if frontier.isEmpty then st
    else if depth < currentDepth then st
    else
      let current := frontier.filter (fun n => n.2 == currentDepth)
      let rest := frontier.filter (fun n => currentDepth < n.2)
      let st := emitE st Event.progress
      let r := current.foldl (stepNode env depth breadth currentDepth) (st, [])
      levelLoop env depth breadth fuel (currentDepth + 1) (rest ++ r.2) r.1

/-- Line 522: `Math.min(Math.max(1, options.depth), 5)`. -/
def clampDepth (d : Int) : Nat := (min (max 1 d) 5).toNat

/-- Line 523: `Math.min(Math.max(2, options.breadth), 5)`. -/
def clampBreadth (b : Int) : Nat := (min (max 2 b) 5).toNat

/-- The session state after the frontier loop of
`doDeepResearch(query, {depth, breadth})`. -/
def doDeepResearchSt (env : DeepEnv) (query : String) (odepth obreadth : Int) : St :=
  levelLoop env (clampDepth odepth) (clampBreadth obreadth)
    (clampDepth odepth) 1 [(query, 1)] emptySt

/-- The final report of a deep session (line 656): the unified writer over
the collected learnings. -/
def deepFinalReport (env : DeepEnv) (query : String) (st : St) : String :=
  generateFinalReportU env.reportLLM query st.allLearnings

/-- The full deep-mode event stream (lines 521-676 plus the progress lines
the route's callback writes): the loop's events, the pre-report progress
(line 654), the `content` event (lines 659-662), and the closing progress
update (lines 665-667). -/
def doDeepResearch (env : DeepEnv) (query : String) (odepth obreadth : Int) : List Event :=
  let st := doDeepResearchSt env query odepth obreadth
  st.events ++
    [Event.progress,
     Event.content (deepFinalReport env query st),
     Event.progress]

/-! ## Regular research mode (`UnifiedResearchAgent.doRegularResearch`,
lines 486-516, and `formatSearchResults`, lines 466-481) -/

/-- One entry of `formatSearchResults`: `none` models the `new URL(url)`
constructor throwing for a non-`'#'` invalid URL (the function has no
try/catch, so the exception propagates). -/
def formatDoc (idx : Nat) (d : RawDoc) : Option String :=
  let content :=
    if d.markdown ≠ "" then d.markdown
    else if d.description ≠ "" then d.description
    else "No content available"
  let title := if d.title ≠ "" then d.title else "Untitled"
  let url := if d.url ≠ "" then d.url else "#"
  let dom? : Option String :=
    if url = "#" then some "unknown" else (hostOfUrl url).map agentDomain
  match dom? with
  | none => none
  | some dom =>
    some ("\n## " ++ toString (idx + 1) ++ ". " ++ title ++
      "\n**Source:** [" ++ url ++ "](" ++ url ++ ") (" ++ dom ++ ")\n" ++
      content ++ "\n      ")

/-- `formatSearchResults`: format every result and join with blank lines. -/
def formatSearchResults (docs : List RawDoc) : Option String :=
  (docs.enum.mapM (fun p => formatDoc p.1 p.2)).map (String.intercalate "\n\n")

/-- The regular-mode event stream: the initial progress report (line 488),
`searchWeb`'s own progress reports, then — when there are results — the
`search_results` and `sources` events (lines 492-503, the source list
emitted as returned by `searchWeb`, with no URL dedup), then the progress
reports of lines 506, 376 and 511 and the `content` event.  A throwing
`formatSearchResults` escapes to `processQueryStream`'s catch, which emits
the generic `error` event (lines 706-712). -/
def doRegularResearch (env : DeepEnv) (query : String) : List Event :=
  let sw := searchWeb (env.searchAttempts query)
  let pre := Event.progress ::
    List.replicate (searchWebProgressCount (env.searchAttempts query)) Event.progress
  if sw.1.results.isEmpty then
    pre ++ [Event.progress, Event.progress, Event.progress,
            Event.content (generateResearchReport env.reportLLM query)]
  else
    match formatSearchResults sw.1.results with
    | none => pre ++ [Event.error "An error occurred during research. Please try again."]
    | some md =>
      pre ++ [Event.searchResults md, Event.sources sw.1.sources,
              Event.progress, Event.progress, Event.progress,
              Event.content (generateResearchReport env.reportLLM query)]

/-! ## Helper lemmas -/

lemma isPrefixList_self_append (p l : List Char) : isPrefixList p (p ++ l) = true := by
  induction p with
  | nil => rfl
  | cons c cs ih => simp [isPrefixList, ih]

lemma containsSub_mid (p pre post : List Char) (hp : p ≠ []) :
    containsSub p (pre ++ (p ++ post)) = true := by
  induction pre with
  | nil =>
    cases p with
    | nil => exact absurd rfl hp
    | cons c cs =>
      have h := isPrefixList_self_append (c :: cs) post
      rw [List.cons_append] at h
      simp [containsSub, h]
  | cons a as ih => simp [containsSub, ih]

lemma removeFirst_of_not_contains (pat l : List Char) (h : containsSub pat l = false) :
    removeFirstList pat l = l := by
  induction l with
  | nil => rfl
  | cons c cs ih =>
    simp only [containsSub, Bool.or_eq_false_iff] at h
    simp [removeFirstList, h.1, ih h.2]

lemma isPrefix_false_of_not_contains (pat l : List Char) (h : containsSub pat l = false) :
    isPrefixList pat l = false := by
  cases l with
  | nil => exact h
  | cons c cs =>
    simp only [containsSub, Bool.or_eq_false_iff] at h
    exact h.1

lemma mkSource_relevance (d : RawDoc) : (mkSource d).relevance = 90 := by
  cases h : hostOfUrl d.url <;> simp [mkSource, h]

/-! ## Claim C2 — relevance of derived sources -/

/-- C2, counterexample: the claim predicts relevance `0.85` for the document
at provider rank 1, but `searchWeb` assigns the constant `0.9` to every
rank. -/
theorem claim_C2_counterexample :
    ((searchWebSources
        [⟨"https://a.example.org/p", "A", "", ""⟩,
         ⟨"https://b.example.org/q", "B", "", ""⟩]).map Source.relevance) = [90, 90]
    ∧ specRelevance 1 = 85 ∧ (85 : Int) ≠ 90 := by
  decide

/-- C2, amended: every `Source` derived from a search response carries
relevance `0.9` (`90` hundredths), independent of its provider rank. -/
theorem claim_C2_amended :
    ∀ (docs : List RawDoc) (s : Source), s ∈ searchWebSources docs → s.relevance = 90 := by
  intro docs s hs
  have hs2 : s ∈ docs.map mkSource := List.mem_of_mem_filter hs
  rcases List.mem_map.mp hs2 with ⟨d, _hd, rfl⟩
  exact mkSource_relevance d

/-- C2, witness for the amended theorem. -/
theorem claim_C2_witness :
    (mkSource ⟨"https://a.example.org/p", "A", "", ""⟩).relevance = 90 :=
  claim_C2_amended [⟨"https://a.example.org/p", "A", "", ""⟩] _ (by decide)

/-! ## Claim C4 — depth and breadth clamping -/

/-- C4, counterexample: a requested breadth of 1 is not used unchanged; line
523 clamps it up to 2. -/
theorem claim_C4_counterexample : clampBreadth 1 = 2 ∧ (2 : Nat) ≠ 1 := by decide

/-- C4, amended: the effective depth lies in `[1,5]` (values already there
are unchanged), but the effective breadth lies in `[2,5]`: values in `[2,5]`
are unchanged and a requested breadth below 2 is raised to 2. -/
theorem claim_C4_amended : ∀ d b : Int,
    (1 ≤ clampDepth d ∧ clampDepth d ≤ 5 ∧ (1 ≤ d → d ≤ 5 → (clampDepth d : Int) = d))
    ∧ (2 ≤ clampBreadth b ∧ clampBreadth b ≤ 5 ∧
        (2 ≤ b → b ≤ 5 → (clampBreadth b : Int) = b)) := by
  intro d b
  unfold clampDepth clampBreadth
  refine ⟨⟨?_, ?_, ?_⟩, ⟨?_, ?_, ?_⟩⟩ <;> intros <;> omega

/-- C4, witness for the amended theorem. -/
theorem claim_C4_witness : (clampDepth 4 : Int) = 4 ∧ (clampBreadth 4 : Int) = 4 :=
  ⟨(claim_C4_amended 4 4).1.2.2 (by decide) (by decide),
   (claim_C4_amended 4 4).2.2.2 (by decide) (by decide)⟩

/-! ## Claim C9 — domain extraction -/

/-- C9, counterexample: for the valid URL `https://en.www.example.com/a` the
agent removes the *interior* `"www."` (`String.replace` with a string
pattern replaces the first occurrence anywhere), while the claim demands
that only a leading `"www."` be stripped. -/
theorem claim_C9_counterexample :
    (mkSource ⟨"https://en.www.example.com/a", "T", "", ""⟩).domain = "en.example.com"
    ∧ stripLeadingWww "en.www.example.com" = "en.www.example.com"
    ∧ ("en.example.com" : String) ≠ "en.www.example.com" := by
  decide

/-- C9, amended: the `Source` pipeline removes the first occurrence of
`"www."` wherever it appears in the (already lowercased) host; this agrees
with the claimed leading-only strip whenever `"www."` occurs at the front or
not at all — in particular on the spec's own example — and
`StreamProcessor.extractDomain` does strip only a leading `"www."`. -/
theorem claim_C9_amended : ∀ host : String,
    (isPrefixList ("www.".data) host.data = true →
      agentDomain host = String.mk (host.data.drop 4)
      ∧ stripLeadingWww host = String.mk (host.data.drop 4))
    ∧ (containsSub ("www.".data) host.data = false →
      agentDomain host = host ∧ stripLeadingWww host = host)
    ∧ extractDomainSP "https://www.Example.COM/a?x=1" = "example.com"
    ∧ (mkSource ⟨"https://www.Example.COM/a?x=1", "T", "", ""⟩).domain = "example.com" := by
  intro host
  refine ⟨?_, ?_, by decide, by decide⟩
  · intro h
    constructor
    · cases hd : host.data with
      | nil => rw [hd] at h; exact absurd h (by decide)
      | cons c cs =>
        have hlen : ("www.".data).length = 4 := rfl
        rw [hd] at h
        simp [agentDomain, hd, removeFirstList, h, hlen]
    · simp [stripLeadingWww, h]
  · intro h
    constructor
    · show String.mk (removeFirstList ("www.".data) host.data) = host
      rw [removeFirst_of_not_contains _ _ h]
    · simp [stripLeadingWww, isPrefix_false_of_not_contains _ _ h]

/-- C9, witness for the amended theorem. -/
theorem claim_C9_witness :
    agentDomain "www.node.dev" = String.mk ("www.node.dev".data.drop 4)
    ∧ stripLeadingWww "www.node.dev" = String.mk ("www.node.dev".data.drop 4) :=
  (claim_C9_amended "www.node.dev").1 (by decide)

/-! ## Claim C10 — `searchWeb` totality and retry bound -/

/-- C10, confirmed: `searchWeb` makes at most 3 provider attempts; whenever
it does not succeed it resolves to `{results: [], success: false,
sources: []}` (never raising); when every attempt fails it uses exactly 3
attempts; and a first-attempt success returns after one attempt with the
documents and their derived sources. -/
theorem claim_C10_theorem : ∀ out : Nat → Attempt,
    (searchWeb out).2 ≤ 3
    ∧ ((searchWeb out).1.success = false → (searchWeb out).1 = ⟨[], false, []⟩)
    ∧ ((∀ r, attemptOk (out r) = none) → searchWeb out = (⟨[], false, []⟩, 3))
    ∧ (∀ ds, attemptOk (out 0) = some ds →
        searchWeb out = (⟨ds, true, searchWebSources ds⟩, 1)) := by
  intro out
  refine ⟨?_, ?_, ?_, ?_⟩
  · simp only [searchWeb, searchWebAux]
    cases h0 : attemptOk (out 0) <;> cases h1 : attemptOk (out 1) <;>
      cases h2 : attemptOk (out 2) <;> simp [h0, h1, h2]
  · simp only [searchWeb, searchWebAux]
    cases h0 : attemptOk (out 0) <;> cases h1 : attemptOk (out 1) <;>
      cases h2 : attemptOk (out 2) <;> simp [h0, h1, h2]
  · intro h
    simp [searchWeb, searchWebAux, h 0, h 1, h 2]
  · intro ds h0
    simp [searchWeb, searchWebAux, h0]

/-- C10, witness. -/
theorem claim_C10_witness :
    searchWeb (fun _ => Attempt.err) = (⟨[], false, []⟩, 3) :=
  (claim_C10_theorem (fun _ => Attempt.err)).2.2.1 (fun _ => rfl)

/-! ## Claim C7 — query-planner fallback -/

/-- Field access on a JSON object value. -/
def jGet (v : JValue) (k : String) : Option JValue :=
  match v with
  | .jobj fs => jLookup fs k
  | _ => none

/-- C7, counterexample: an LLM output that parses to `{"queries": []}`
passes the `Array.isArray(parsed.queries)` check, so the planner returns the
empty slice — not the claimed single fallback query. -/
theorem claim_C7_counterexample :
    generateSerpQueries (some (.jobj [("queries", .jarr [])])) "capybara" 3 = []
    ∧ (generateSerpQueries (some (.jobj [("queries", .jarr [])])) "capybara" 3).length ≠ 1 :=
  ⟨rfl, by decide⟩

/-- C7, amended: the planner returns the single fallback query (whose
`query` field is the original user query) exactly when no JSON value was
parsed or the parsed value has no `queries` array; a parsed `queries` array
— even an empty or element-wise malformed one — is returned sliced to
`numQueries`, so the result never exceeds `max 1 numQueries` entries. -/
theorem claim_C7_amended : ∀ (query : String) (numQueries : Nat),
    generateSerpQueries none query numQueries = [fallbackQuery query]
    ∧ (∀ v, queriesArrayOf v = none →
        generateSerpQueries (some v) query numQueries = [fallbackQuery query])
    ∧ (∀ v xs, queriesArrayOf v = some xs →
        generateSerpQueries (some v) query numQueries = xs.take numQueries)
    ∧ (∀ parsed, (generateSerpQueries parsed query numQueries).length ≤ max 1 numQueries)
    ∧ jGet (fallbackQuery query) "query" = some (.jstr query) := by
  intro query numQueries
  refine ⟨rfl, ?_, ?_, ?_, rfl⟩
  · intro v hv
    simp [generateSerpQueries, hv]
  · intro v xs hv
    simp [generateSerpQueries, hv]
  · intro parsed
    cases parsed with
    | none =>
      simp [generateSerpQueries]
    | some v =>
      cases hv : queriesArrayOf v with
      | none =>
        simp [generateSerpQueries, hv]
      | some xs =>
        simp only [generateSerpQueries, hv]
        have h1 : (xs.take numQueries).length = min numQueries xs.length :=
          List.length_take _ _
        omega

/-- C7, witness. -/
theorem claim_C7_witness :
    generateSerpQueries (some (JValue.jstr "no json object")) "why is the sky blue" 3
      = [fallbackQuery "why is the sky blue"] :=
  (claim_C7_amended "why is the sky blue" 3).2.1 (JValue.jstr "no json object") rfl

/-! ## Claim C8 — rate limiter -/

/-- C8, counterexample: eleven back-to-back requests starting from the
initial state produce nine admissions that waited 0 ms, all at wall-clock
times inside the rolling window `[0 ms, 60000 ms)` — more than the claimed
five.  (After each backoff sleep the counter and window restart, so a
rolling 60-second window is not actually enforced.) -/
theorem claim_C8_counterexample :
    ((runRequests rlStart 0 11).1.filter (fun p => p.2 == 0 && p.1 < 60000)).length = 9
    ∧ ¬ ((runRequests rlStart 0 11).1.filter
          (fun p => p.2 == 0 && p.1 < 60000)).length ≤ 5 := by
  decide

/-- C8, amended: the backoff starts at 1000 ms, doubles (capped at 60000 ms)
on each consecutive rate-limit wait, stays within `[1000, 60000]`, and
resets to 1000 ms once 60 s have elapsed since the last window stamp; an
admission that did not wait implies the counter was below 5 or the window
had just reset — i.e. at most 5 unwaited admissions per *window epoch*
(between counter resets), not per rolling 60-second window. -/
theorem claim_C8_amended : ∀ (s : RLState) (now : Nat),
    rlStart.currentBackoffMs = 1000
    ∧ (60000 ≤ now - s.lastResetTime → waitForRateLimit s now = (⟨0, now, 1000⟩, 0))
    ∧ (¬ 60000 ≤ now - s.lastResetTime → 5 ≤ s.requestCount →
        waitForRateLimit s now =
          (⟨0, now + s.currentBackoffMs, min (s.currentBackoffMs * 2) 60000⟩,
           s.currentBackoffMs))
    ∧ (1000 ≤ s.currentBackoffMs → s.currentBackoffMs ≤ 60000 →
        1000 ≤ (waitForRateLimit s now).1.currentBackoffMs
          ∧ (waitForRateLimit s now).1.currentBackoffMs ≤ 60000)
    ∧ (1000 ≤ s.currentBackoffMs → (waitForRateLimit s now).2 = 0 →
        s.requestCount < 5 ∨ 60000 ≤ now - s.lastResetTime)
    ∧ (s.requestCount ≤ 5 → (admitRequest s now).1.requestCount ≤ 5) := by
  intro s now
  refine ⟨rfl, ?_, ?_, ?_, ?_, ?_⟩ <;>
    · intros
      simp_all only [waitForRateLimit, admitRequest, MAX_REQUESTS_PER_MINUTE,
        BACKOFF_INITIAL_MS, BACKOFF_MAX_MS, BACKOFF_MULTIPLIER]
      split_ifs at * <;> simp_all <;> omega

/-- C8, witness for the amended theorem. -/
theorem claim_C8_witness :
    waitForRateLimit ⟨5, 0, 1000⟩ 10 =
      (⟨0, 10 + 1000, min (1000 * 2) 60000⟩, 1000) :=
  (claim_C8_amended ⟨5, 0, 1000⟩ 10).2.2.1 (by decide) (by decide)

/-! ## Engine invariants -/

/-- Fold preservation of a predicate. -/
lemma foldlPreserve {α β : Type _} (Q : β → Prop) (f : β → α → β)
    (h : ∀ b a, Q b → Q (f b a)) : ∀ (l : List α) (b : β), Q b → Q (l.foldl f b) := by
  intro l
  induction l with
  | nil => intro b hb; exact hb
  | cons x xs ih => intro b hb; exact ih _ (h _ _ hb)

lemma streamUrls_append (es fs : List Event) :
    streamUrls (es ++ fs) = streamUrls es ++ streamUrls fs := by
  simp [streamUrls]

lemma streamUrls_replicate_progress (n : Nat) :
    streamUrls (List.replicate n Event.progress) = [] := by
  induction n with
  | zero => rfl
  | succ m ih => simp [streamUrls, List.replicate_succ, eventUrls]

/-- The kinds of events the deep-mode frontier loop can emit. -/
def isLoopKind (e : Event) : Prop :=
  e.kind = EKind.kprogress ∨ e.kind = EKind.ksources ∨ e.kind = EKind.klearning

/-- The loop invariant of `doDeepResearch`: the stream so far holds only
progress/sources/learning events, the URLs announced in `sources` events are
exactly `visitedUrls` in order, and the visited-URL and visited-query sets
are duplicate-free. -/
def StInv (st : St) : Prop :=
  (∀ e ∈ st.events, isLoopKind e)
  ∧ streamUrls st.events = st.visitedUrls
  ∧ st.visitedUrls.Nodup
  ∧ st.visitedQueries.Nodup

lemma stInv_empty : StInv emptySt :=
  ⟨fun e he => absurd he (List.not_mem_nil e), rfl, List.nodup_nil, List.nodup_nil⟩

lemma stInv_emit_progress (st : St) (h : StInv st) : StInv (emitE st Event.progress) := by
  obtain ⟨hk, hu, hn, hq⟩ := h
  refine ⟨?_, ?_, hn, hq⟩
  · intro e he
    rcases List.mem_append.mp he with he | he
    · exact hk e he
    · rcases List.mem_singleton.mp he with rfl
      exact Or.inl rfl
  · show streamUrls (st.events ++ [Event.progress]) = st.visitedUrls
    rw [streamUrls_append, hu]
    simp [streamUrls, eventUrls]

lemma stInv_searchCalls (st : St) (x : List String) (h : StInv st) :
    StInv { st with searchCalls := x } := h

lemma stInv_events_replicate (st : St) (n : Nat) (h : StInv st) :
    StInv { st with events := st.events ++ List.replicate n Event.progress } := by
  obtain ⟨hk, hu, hn, hq⟩ := h
  refine ⟨?_, ?_, hn, hq⟩
  · intro e he
    rcases List.mem_append.mp he with he | he
    · exact hk e he
    · rcases List.eq_of_mem_replicate he with rfl
      exact Or.inl rfl
  · show streamUrls (st.events ++ List.replicate n Event.progress) = st.visitedUrls
    rw [streamUrls_append, hu, streamUrls_replicate_progress, List.append_nil]

lemma stInv_addLearning (st : St) (l : String) (h : StInv st) : StInv (addLearning st l) := by
  obtain ⟨hk, hu, hn, hq⟩ := h
  refine ⟨?_, ?_, hn, hq⟩
  · intro e he
    rcases List.mem_append.mp he with he | he
    · exact hk e he
    · rcases List.mem_singleton.mp he with rfl
      exact Or.inr (Or.inr rfl)
  · show streamUrls (st.events ++ [Event.learning l]) = st.visitedUrls
    rw [streamUrls_append, hu]
    simp [streamUrls, eventUrls]

lemma stInv_insertSource (st : St) (src : Source) (h : StInv st) :
    StInv (insertSource st src) := by
  obtain ⟨hk, hu, hn, hq⟩ := h
  by_cases hc : st.visitedUrls.contains src.url = true
  · rw [insertSource, if_pos hc]
    exact ⟨hk, hu, hn, hq⟩
  · rw [insertSource, if_neg hc]
    have hmem : src.url ∉ st.visitedUrls := by
      intro hm
      exact hc (by simpa using hm)
    refine ⟨?_, ?_, ?_, hq⟩
    · intro e he
      rcases List.mem_append.mp he with he | he
      · exact hk e he
      · rcases List.mem_singleton.mp he with rfl
        exact Or.inr (Or.inl rfl)
    · show streamUrls (st.events ++ [Event.sources [src]]) = st.visitedUrls ++ [src.url]
      rw [streamUrls_append, hu]
      simp [streamUrls, eventUrls]
    · show (st.visitedUrls ++ [src.url]).Nodup
      simpa [List.nodup_append, hmem] using hn

lemma stInv_addVisited (st : St) (q : String)
    (h : StInv st) (hq : st.visitedQueries.contains q = false) :
    StInv { st with visitedQueries := st.visitedQueries ++ [q] } := by
  obtain ⟨hk, hu, hn, hvq⟩ := h
  have hmem : q ∉ st.visitedQueries := by simpa using hq
  refine ⟨hk, hu, hn, ?_⟩
  show (st.visitedQueries ++ [q]).Nodup
  simpa [List.nodup_append, hmem] using hvq

lemma stInv_stepGenerated (env : DeepEnv) (d b cd : Nat) (st : St) (gq : SerpQuery)
    (h : StInv st) : StInv (stepGenerated env d b cd st gq).1 :=
  stInv_emit_progress _
    (foldlPreserve StInv addLearning stInv_addLearning _ _
      (foldlPreserve StInv insertSource stInv_insertSource _ _
        (stInv_events_replicate _ _
          (stInv_searchCalls _ _
            (stInv_emit_progress st h)))))

lemma stInv_stepNode (env : DeepEnv) (d b cd : Nat)
    (acc : St × List (String × Nat)) (node : String × Nat)
    (h : StInv acc.1) : StInv (stepNode env d b cd acc node).1 := by
  by_cases hc : acc.1.visitedQueries.contains node.1 = true
  · rw [stepNode, if_pos hc]
    exact h
  · rw [stepNode, if_neg hc]
    exact foldlPreserve (fun p : St × List (String × Nat) => StInv p.1)
      (fun a gq =>
        ((stepGenerated env d b cd a.1 gq).1, a.2 ++ (stepGenerated env d b cd a.1 gq).2))
      (fun p gq hp => stInv_stepGenerated env d b cd p.1 gq hp) _ _
      (stInv_emit_progress _ (stInv_addVisited acc.1 node.1 h (by simpa using hc)))

lemma stInv_levelLoop (env : DeepEnv) (d b : Nat) :
    ∀ (fuel cd : Nat) (frontier : List (String × Nat)) (st : St),
      StInv st → StInv (levelLoop env d b fuel cd frontier st) := by
  intro fuel
  induction fuel with
  | zero => intro cd frontier st h; exact h
  | succ f ih =>
    intro cd frontier st h
    rw [levelLoop]
    by_cases he : frontier.isEmpty = true
    · rw [if_pos he]; exact h
    · rw [if_neg he]
      by_cases hd : d < cd
      · rw [if_pos hd]; exact h
      · rw [if_neg hd]
        exact ih _ _ _
          (foldlPreserve (fun p : St × List (String × Nat) => StInv p.1)
            (stepNode env d b cd)
            (fun p n hp => stInv_stepNode env d b cd p n hp) _ _
            (stInv_emit_progress st h))

lemma stInv_doDeepResearchSt (env : DeepEnv) (query : String) (d b : Int) :
    StInv (doDeepResearchSt env query d b) :=
  stInv_levelLoop env _ _ _ _ _ _ stInv_empty

/-! ## Demo environments for concrete runs -/

/-- A session in which every external call fails: the planner falls back to
the node query, every search attempt throws, and the final-report chat call
throws. -/
def trivEnv : DeepEnv :=
  ⟨fun _ _ => .failed, fun _ _ => .err, fun _ _ => ([], []), none⟩

/-- A session whose searches succeed and whose final-report call returns a
fixed text. -/
def demoEnvC3 : DeepEnv :=
  { plan := fun _ _ => .failed
    searchAttempts := fun _ _ => .resp (some [⟨"https://bell-labs.com/history", "Bell Labs", "m", ""⟩])
    process := fun _ _ => (["Bardeen co-invented the transistor"], [])
    reportLLM := some "Transistor history report." }

/-- A regular-mode session whose provider returns the same URL twice. -/
def demoEnvC5 : DeepEnv :=
  { plan := fun _ _ => .failed
    searchAttempts := fun _ _ => .resp (some
      [⟨"https://dup.example.org/x", "Dup", "m", ""⟩,
       ⟨"https://dup.example.org/x", "Dup again", "m", ""⟩])
    process := fun _ _ => ([], [])
    reportLLM := some "r" }

/-- A deep session whose level-1 node plans two queries whose follow-ups are
the case-variants `"Foo"` and `"foo"`. -/
def demoEnvC6 : DeepEnv :=
  { plan := fun q _ => if q = "q" then .ok [⟨"q1", "g"⟩, ⟨"q2", "g"⟩] else .failed
    searchAttempts := fun _ _ => .resp (some [⟨"https://s.example.org/1", "t", "m", ""⟩])
    process := fun q _ =>
      if q = "q1" then (["l1"], ["Foo"])
      else if q = "q2" then (["l2"], ["foo"])
      else ([], [])
    reportLLM := some "r" }

/-- ASCII lowercasing, character by character (the normalization the claim
speaks of, minus trimming). -/
def lowerStr (s : String) : String := String.mk (s.data.map Char.toLower)

/-! ## Claim C1 — event stream framing -/

/-- C1, counterexample: a concrete deep session's stream does not begin with
a `start` event, contains a `content` event but no `complete` event at all,
and ends with a `progress` event rather than `complete`. -/
theorem claim_C1_counterexample :
    (doDeepResearch trivEnv "q" 2 3).head? ≠ some Event.start
    ∧ EKind.kcomplete ∉ (doDeepResearch trivEnv "q" 2 3).map Event.kind
    ∧ EKind.kstart ∉ (doDeepResearch trivEnv "q" 2 3).map Event.kind
    ∧ ((doDeepResearch trivEnv "q" 2 3).getLast?.map Event.kind) = some EKind.kprogress
    ∧ EKind.kcontent ∈ (doDeepResearch trivEnv "q" 2 3).map Event.kind := by
  decide

/-- C1, amended: the engine emits no `start` and no `complete` event.  Every
deep-mode stream is a prefix of progress/sources/learning events followed by
exactly `progress`, the `content` event carrying the final report, and a
closing `progress` update; in particular `content` is the second-to-last
event of the stream. -/
theorem claim_C1_amended : ∀ (env : DeepEnv) (query : String) (d b : Int),
    doDeepResearch env query d b
      = (doDeepResearchSt env query d b).events ++
          [Event.progress,
           Event.content (deepFinalReport env query (doDeepResearchSt env query d b)),
           Event.progress]
    ∧ ∀ e ∈ (doDeepResearchSt env query d b).events,
        e.kind = EKind.kprogress ∨ e.kind = EKind.ksources ∨ e.kind = EKind.klearning := by
  intro env query d b
  exact ⟨rfl, (stInv_doDeepResearchSt env query d b).1⟩

/-- C1, witness for the amended theorem. -/
theorem claim_C1_witness :
    Event.progress.kind = EKind.kprogress ∨ Event.progress.kind = EKind.ksources
      ∨ Event.progress.kind = EKind.klearning :=
  (claim_C1_amended trivEnv "q" 2 3).2 Event.progress (by decide)

/-! ## Claim C3 — the `## Sources` section of the final report -/

/-- C3, counterexample: a deep session emits its final report verbatim from
the LLM; the emitted `content` payload has no `## Sources` section even
though the session collected a source. -/
theorem claim_C3_counterexample :
    Event.content "Transistor history report." ∈ doDeepResearch demoEnvC3 "q" 1 2
    ∧ containsSub ("## Sources".data) ("Transistor history report.".data) = false
    ∧ Event.sources
        [⟨"Bell Labs", "https://bell-labs.com/history", "bell-labs.com",
          "https://www.google.com/s2/favicons?domain=bell-labs.com&sz=32", 90⟩]
        ∈ doDeepResearch demoEnvC3 "q" 1 2 := by
  decide

/-- C3, amended: the unified agent (the pipeline behind the streamed
`content` event) returns the LLM report verbatim with no appended section;
the mechanical `## Sources` footer exists only in the two other writers:
`writeFinalReport` and `DeepResearchAgent.generateFinalReport` append it on
success, and the latter's failure fallback also contains it. -/
theorem claim_C3_amended : ∀ (r q : String) (ls urls : List String),
    generateFinalReportU (some r) q ls = r
    ∧ writeFinalReport r urls = r ++ sourcesSection urls
    ∧ generateFinalReportD (some r) q ls urls = r ++ sourcesSection urls
    ∧ containsSub ("## Sources".data) (writeFinalReport r urls).data = true
    ∧ containsSub ("## Sources".data) (generateFinalReportD none q ls urls).data = true := by
  intro r q ls urls
  refine ⟨rfl, rfl, rfl, ?_, ?_⟩
  · have e1 : (writeFinalReport r urls).data
        = (r.data ++ "\n\n".data)
            ++ ("## Sources".data ++ ("\n\n".data ++ (bulletList urls).data)) := by
      show (r ++ ("\n\n## Sources\n\n" ++ bulletList urls)).data = _
      simp [List.append_assoc]
    rw [e1]
    exact containsSub_mid _ _ _ (by decide)
  · have e2 : (generateFinalReportD none q ls urls).data
        = (("# Research Report: ".data ++ q.data
            ++ "\n\n## Summary\n\nThere was an error generating the complete research report.".data
            ++ "\n\n## Raw Findings\n\n".data ++ (bulletList ls).data ++ "\n\n".data)
            ++ ("## Sources".data ++ ("\n\n".data ++ (bulletList urls).data))) := by
      show ("# Research Report: " ++ q
          ++ "\n\n## Summary\n\nThere was an error generating the complete research report."
          ++ "\n\n## Raw Findings\n\n" ++ bulletList ls
          ++ "\n\n## Sources\n\n" ++ bulletList urls).data = _
      simp [List.append_assoc]
    rw [e2]
    exact containsSub_mid _ _ _ (by decide)

/-- C3, witness for the amended theorem. -/
theorem claim_C3_witness :
    generateFinalReportU (some "just the LLM text") "who invented the transistor" []
      = "just the LLM text" :=
  (claim_C3_amended "just the LLM text" "who invented the transistor" [] []).1

/-! ## Claim C5 — source URL dedup -/

/-- C5, counterexample: in a regular-mode session the `sources` event relays
`searchWeb`'s list as-is, so a provider response repeating a URL produces a
stream whose announced URLs contain a duplicate. -/
theorem claim_C5_counterexample :
    ¬ (streamUrls (doRegularResearch demoEnvC5 "q")).Nodup
    ∧ streamUrls (doRegularResearch demoEnvC5 "q")
        = ["https://dup.example.org/x", "https://dup.example.org/x"] := by
  decide

/-- C5, amended: in *deep* mode the claim holds — the URLs announced across
all `sources` events of a session are pairwise distinct, and inserting a
source whose URL was already seen leaves the session state (collection and
stream) unchanged.  Regular mode performs no such dedup. -/
theorem claim_C5_amended : ∀ (env : DeepEnv) (query : String) (d b : Int),
    (streamUrls (doDeepResearch env query d b)).Nodup
    ∧ (∀ (st : St) (src : Source),
        st.visitedUrls.contains src.url = true → insertSource st src = st) := by
  intro env query d b
  constructor
  · have h := stInv_doDeepResearchSt env query d b
    show (streamUrls ((doDeepResearchSt env query d b).events ++
      [Event.progress,
       Event.content (deepFinalReport env query (doDeepResearchSt env query d b)),
       Event.progress])).Nodup
    rw [streamUrls_append, h.2.1]
    have htail : streamUrls
        [Event.progress,
         Event.content (deepFinalReport env query (doDeepResearchSt env query d b)),
         Event.progress] = [] := rfl
    rw [htail, List.append_nil]
    exact h.2.2.1
  · intro st src h2
    rw [insertSource, if_pos h2]

/-- C5, witness for the amended theorem. -/
theorem claim_C5_witness :
    insertSource ⟨[], [], ["https://seen.example.org/"], [], [], []⟩
        ⟨"T", "https://seen.example.org/", "seen.example.org", "", 90⟩
      = ⟨[], [], ["https://seen.example.org/"], [], [], []⟩ :=
  (claim_C5_amended trivEnv "q" 1 1).2 _ _ (by decide)

/-! ## Claim C6 — query dedup and normalization -/

/-- C6, counterexample: the frontier entries `"Foo"` and `"foo"` differ only
in letter case, yet the session searches both — the dequeue-time check uses
exact string equality, not lowercased/trimmed normalization. -/
theorem claim_C6_counterexample :
    ((doDeepResearchSt demoEnvC6 "q" 2 2).searchCalls.filter
        (fun c => lowerStr c == "foo")).length = 2
    ∧ lowerStr "Foo" = lowerStr "foo"
    ∧ ("Foo" : String) ≠ "foo" := by
  decide

/-- C6, amended: dedup at dequeue time is by *exact* string equality: a
frontier node whose query string was already visited verbatim is dropped
(processing it changes nothing), and the visited-query set never holds two
identical strings — but case or whitespace variants are all searched. -/
theorem claim_C6_amended : ∀ (env : DeepEnv) (query : String) (d b : Int),
    (doDeepResearchSt env query d b).visitedQueries.Nodup
    ∧ (∀ (depth breadth cd : Nat) (acc : St × List (String × Nat))
          (node : String × Nat),
        acc.1.visitedQueries.contains node.1 = true →
        stepNode env depth breadth cd acc node = acc) := by
  intro env query d b
  refine ⟨(stInv_doDeepResearchSt env query d b).2.2.2, ?_⟩
  intro depth breadth cd acc node h
  rw [stepNode, if_pos h]

/-- C6, witness for the amended theorem. -/
theorem claim_C6_witness :
    stepNode trivEnv 1 1 1 (⟨[], ["asked before"], [], [], [], []⟩, []) ("asked before", 1)
      = (⟨[], ["asked before"], [], [], [], []⟩, []) :=
  (claim_C6_amended trivEnv "q" 1 1).2 1 1 1 _ _ (by decide)
